import Mathlib

/-!
Verification of the tabular-preprocessing helpers in `helper_func.py`
(`reduce_dtypes`, `size_of_fmt`, `merge_by_concat`) over a shallow
embedding.

Modelling conventions:
* A DataFrame is an ordered list of named, typed columns; a column holds a
  list of cell values.  Cell values are exact integers and rationals; a
  dtype conversion (`astype`) retags the column and casts each cell with
  `castVal`: the identity on integer and non-numeric targets (exact for
  every conversion `reduce_dtypes` performs, because its strict range
  guards ensure the value fits), and IEEE-754 round-to-nearest-even at
  the target precision (`fpRound`) for float targets, the way numpy
  rounds cells on `astype(np.float16/float32/float64)`.
* `NaN` produced by `min`/`max` of an empty (or all-missing) column is
  modelled as `Option.none`; every ordered comparison against `none` is
  false, exactly like a NumPy `NaN` comparison.
* The verbose memory report of `reduce_dtypes` is modelled as an optional
  side-channel value `(end_mem, percent_reduction)` returned next to the
  frame; the exact index overhead constant is irrelevant to every theorem.
-/

/-- The dtypes occurring in `helper_func.py`: the six members of its
`numerics` list, plus `int8` (a conversion target) and `obj` standing
for any non-numeric dtype. -/
inductive Dtype where
  | int8 | int16 | int32 | int64
  | float16 | float32 | float64
  | obj
deriving DecidableEq, Repr

/-- A cell value: an exact integer, an exact rational (float cell),
a string (non-numeric cell), or a missing value (`NaN`/`NA`). -/
inductive Val where
  | i (n : Int)
  | f (q : ℚ)
  | s (t : String)
  | missing
deriving DecidableEq, Repr

/-- A named, typed column: `df[col]` together with its dtype. -/
structure Col where
  name : String
  dtype : Dtype
  values : List Val
deriving DecidableEq, Repr

/-- A DataFrame: the ordered list of its columns. -/
abbrev DataFrame := List Col

/-- `numerics = ['int16', 'int32', 'int64', 'float16', 'float32', 'float64']`
(line 63 of the source).  Note `int8` is absent. -/
def numerics : List Dtype :=
  [.int16, .int32, .int64, .float16, .float32, .float64]

/-- `str(col_type)[:3] == 'int'`: the dtype's name starts with `"int"`,
i.e. it is one of the integer dtypes. -/
def intKind : Dtype → Bool
  | .int8 | .int16 | .int32 | .int64 => true
  | _ => false

/-- `np.iinfo(t).min` / `np.finfo(t).min` as an exact rational. -/
def dtypeMinQ : Dtype → ℚ
  | .int8 => -128
  | .int16 => -32768
  | .int32 => -2147483648
  | .int64 => -9223372036854775808
  | .float16 => -65504
  | .float32 => -340282346638528859811704183484516925440
  | .float64 => -((2 ^ 53 - 1) * 2 ^ 971)
  | .obj => 0

/-- `np.iinfo(t).max` / `np.finfo(t).max` as an exact rational. -/
def dtypeMaxQ : Dtype → ℚ
  | .int8 => 127
  | .int16 => 32767
  | .int32 => 2147483647
  | .int64 => 9223372036854775807
  | .float16 => 65504
  | .float32 => 340282346638528859811704183484516925440
  | .float64 => (2 ^ 53 - 1) * 2 ^ 971
  | .obj => 0

/-- Itemsize in bytes of each dtype (`obj` columns store 8-byte object
pointers); doubles as the "width" measuring how narrow a dtype is. -/
def itemsize : Dtype → ℚ
  | .int8 => 1
  | .int16 => 2
  | .int32 => 4
  | .int64 => 8
  | .float16 => 2
  | .float32 => 4
  | .float64 => 8
  | .obj => 8

/-- The numeric content of a cell, skipping missing values (`skipna`)
and non-numeric cells. -/
def valQ : Val → Option ℚ
  | .i n => (n : ℚ)
  | .f q => q
  | _ => none

/-- `df[col].min()`: `none` models the `NaN` returned on an empty
(or all-missing) column. -/
def colMin (vs : List Val) : Option ℚ := (vs.filterMap valQ).min?

/-- `df[col].max()`: `none` models the `NaN` returned on an empty
(or all-missing) column. -/
def colMax (vs : List Val) : Option ℚ := (vs.filterMap valQ).max?

/-- `c_min > b` with `NaN`-semantics: a comparison against `NaN`
(`none`) is false. -/
def ogt (m : Option ℚ) (b : ℚ) : Prop :=
  match m with
  | some x => b < x
  | none => False

/-- `c_max < b` with `NaN`-semantics: a comparison against `NaN`
(`none`) is false. -/
def olt (m : Option ℚ) (b : ℚ) : Prop :=
  match m with
  | some x => x < b
  | none => False

instance (m : Option ℚ) (b : ℚ) : Decidable (ogt m b) :=
  match m with
  | some x => inferInstanceAs (Decidable (b < x))
  | none => isFalse (fun h => h)

instance (m : Option ℚ) (b : ℚ) : Decidable (olt m b) :=
  match m with
  | some x => inferInstanceAs (Decidable (x < b))
  | none => isFalse (fun h => h)

/-- Round a rational to the nearest integer, ties to even. -/
def rne (x : ℚ) : Int :=
  if x - ⌊x⌋ < 1 / 2 then ⌊x⌋
  else if 1 / 2 < x - ⌊x⌋ then ⌊x⌋ + 1
  else if ⌊x⌋ % 2 = 0 then ⌊x⌋ else ⌊x⌋ + 1

/-- IEEE-754 round-to-nearest-even of a rational at `p` significand
bits with minimum normal exponent `emin`: round onto the grid of
multiples of `2 ^ (e - (p - 1))`, where `e` is the input's binary
exponent clamped below at `emin` (the clamp yields the subnormal
grid).  Overflow to infinity is not modelled: every conversion
`reduce_dtypes` performs is guarded by strict range checks under which
each rounded cell stays within the target's finite range. -/
def fpRound (p : Nat) (emin : Int) (q : ℚ) : ℚ :=
  if q = 0 then 0
  else
    (rne (q / (2 : ℚ) ^ (max (Int.log 2 |q|) emin - ((p : Int) - 1))) : ℚ) *
      (2 : ℚ) ^ (max (Int.log 2 |q|) emin - ((p : Int) - 1))

/-- Casting one cell to dtype `t`, as `numpy.astype` does: float
targets round to the target precision (float16: 11 significand bits,
emin −14; float32: 24 bits, emin −126; float64: 53 bits, emin −1022);
missing cells (`NaN`) are preserved; integer-to-integer casts are the
identity, exact for every conversion `reduce_dtypes` performs since
its strict range guards ensure the value fits the target. -/
def castVal : Dtype → Val → Val
  | .float16, .f q => .f (fpRound 11 (-14) q)
  | .float32, .f q => .f (fpRound 24 (-126) q)
  | .float64, .f q => .f (fpRound 53 (-1022) q)
  | _, v => v

/-- `df[col].astype(t)`: retag the column and cast every cell. -/
def astype (t : Dtype) (c : Col) : Col :=
  ⟨c.name, t, c.values.map (castVal t)⟩

/-- The body of the `for col in df.columns` loop of `reduce_dtypes`
(lines 68–91 of the source), acting on one column.  `colMin c.values`
and `colMax c.values` are the loop's `c_min` and `c_max`. -/
def reduceCol (c : Col) : Col :=
  if c.dtype ∈ numerics then
    if intKind c.dtype then
      if ogt (colMin c.values) (dtypeMinQ .int8) ∧
          olt (colMax c.values) (dtypeMaxQ .int8) then
        astype .int8 c
      else if ogt (colMin c.values) (dtypeMinQ .int16) ∧
          olt (colMax c.values) (dtypeMaxQ .int16) then
        astype .int16 c
      else if ogt (colMin c.values) (dtypeMinQ .int32) ∧
          olt (colMax c.values) (dtypeMaxQ .int32) then
        astype .int32 c
      else if ogt (colMin c.values) (dtypeMinQ .int64) ∧
          olt (colMax c.values) (dtypeMaxQ .int64) then
        astype .int64 c
      else c
    else
      if ogt (colMin c.values) (dtypeMinQ .float16) ∧
          olt (colMax c.values) (dtypeMaxQ .float16) then
        astype .float16 c
      else if ogt (colMin c.values) (dtypeMinQ .float32) ∧
          olt (colMax c.values) (dtypeMaxQ .float32) then
        astype .float32 c
      else
        astype .float64 c
  else c

/-- `df.memory_usage().sum()` in bytes: the 128-byte `RangeIndex` entry
plus `itemsize * nrows` per column.  (The exact index constant plays no
role in any theorem: the report is a pure side channel.) -/
def memUsageBytes (df : DataFrame) : ℚ :=
  128 + (df.map (fun c => itemsize c.dtype * c.values.length)).sum

/-- `reduce_dtypes(df, verbose)` (lines 50–99): returns the converted
frame together with the optional verbose report
`(end_mem_mb, percent_reduction)` — the side channel behind the
`print` on line 97. -/
def reduce_dtypes (df : DataFrame) (verbose : Bool := true) :
    DataFrame × Option (ℚ × ℚ) :=
  let start_mem := memUsageBytes df / 1024 ^ 2
  let df' := df.map reduceCol
  let end_mem := memUsageBytes df' / 1024 ^ 2
  (df', if verbose then some (end_mem, 100 * (start_mem - end_mem) / start_mem)
        else none)

/-- The ordered integer candidate list int8 → int16 → int32 → int64
walked by the integer branch. -/
def intCandidates : List Dtype := [.int8, .int16, .int32, .int64]

example : (reduce_dtypes [⟨"a", .int64, [.i 5]⟩] true).1
    = [⟨"a", .int8, [.i 5]⟩] := by decide

example : (reduce_dtypes [⟨"a", .int64, [.i 127]⟩] true).1
    = [⟨"a", .int16, [.i 127]⟩] := by decide

example : (reduce_dtypes [⟨"a", .float16, []⟩] true).1
    = [⟨"a", .float64, []⟩] := by decide

example : (reduce_dtypes [⟨"a", .int8, [.i 200]⟩] true).1
    = [⟨"a", .int8, [.i 200]⟩] := by decide

/-! ## Helper lemmas about `reduce_dtypes` -/

lemma reduce_fst (df : DataFrame) (v : Bool) :
    (reduce_dtypes df v).1 = df.map reduceCol := rfl

lemma reduceCol_not_numeric (c : Col) (h : c.dtype ∉ numerics) :
    reduceCol c = c := by
  unfold reduceCol
  rw [if_neg h]

lemma reduceCol_name (c : Col) : (reduceCol c).name = c.name := by
  unfold reduceCol astype
  split_ifs <;> rfl

lemma reduceCol_int8 (c : Col) (hnum : c.dtype ∈ numerics)
    (hik : intKind c.dtype = true)
    (h8 : ogt (colMin c.values) (dtypeMinQ .int8) ∧
      olt (colMax c.values) (dtypeMaxQ .int8)) :
    reduceCol c = astype .int8 c := by
  unfold reduceCol
  rw [if_pos hnum, if_pos hik, if_pos h8]

lemma reduceCol_int16 (c : Col) (hnum : c.dtype ∈ numerics)
    (hik : intKind c.dtype = true)
    (h8 : ¬(ogt (colMin c.values) (dtypeMinQ .int8) ∧
      olt (colMax c.values) (dtypeMaxQ .int8)))
    (h16 : ogt (colMin c.values) (dtypeMinQ .int16) ∧
      olt (colMax c.values) (dtypeMaxQ .int16)) :
    reduceCol c = astype .int16 c := by
  unfold reduceCol
  rw [if_pos hnum, if_pos hik, if_neg h8, if_pos h16]

lemma reduceCol_int32 (c : Col) (hnum : c.dtype ∈ numerics)
    (hik : intKind c.dtype = true)
    (h8 : ¬(ogt (colMin c.values) (dtypeMinQ .int8) ∧
      olt (colMax c.values) (dtypeMaxQ .int8)))
    (h16 : ¬(ogt (colMin c.values) (dtypeMinQ .int16) ∧
      olt (colMax c.values) (dtypeMaxQ .int16)))
    (h32 : ogt (colMin c.values) (dtypeMinQ .int32) ∧
      olt (colMax c.values) (dtypeMaxQ .int32)) :
    reduceCol c = astype .int32 c := by
  unfold reduceCol
  rw [if_pos hnum, if_pos hik, if_neg h8, if_neg h16, if_pos h32]

lemma reduceCol_int64 (c : Col) (hnum : c.dtype ∈ numerics)
    (hik : intKind c.dtype = true)
    (h8 : ¬(ogt (colMin c.values) (dtypeMinQ .int8) ∧
      olt (colMax c.values) (dtypeMaxQ .int8)))
    (h16 : ¬(ogt (colMin c.values) (dtypeMinQ .int16) ∧
      olt (colMax c.values) (dtypeMaxQ .int16)))
    (h32 : ¬(ogt (colMin c.values) (dtypeMinQ .int32) ∧
      olt (colMax c.values) (dtypeMaxQ .int32)))
    (h64 : ogt (colMin c.values) (dtypeMinQ .int64) ∧
      olt (colMax c.values) (dtypeMaxQ .int64)) :
    reduceCol c = astype .int64 c := by
  unfold reduceCol
  rw [if_pos hnum, if_pos hik, if_neg h8, if_neg h16, if_neg h32, if_pos h64]

lemma reduceCol_int_none (c : Col) (hnum : c.dtype ∈ numerics)
    (hik : intKind c.dtype = true)
    (h8 : ¬(ogt (colMin c.values) (dtypeMinQ .int8) ∧
      olt (colMax c.values) (dtypeMaxQ .int8)))
    (h16 : ¬(ogt (colMin c.values) (dtypeMinQ .int16) ∧
      olt (colMax c.values) (dtypeMaxQ .int16)))
    (h32 : ¬(ogt (colMin c.values) (dtypeMinQ .int32) ∧
      olt (colMax c.values) (dtypeMaxQ .int32)))
    (h64 : ¬(ogt (colMin c.values) (dtypeMinQ .int64) ∧
      olt (colMax c.values) (dtypeMaxQ .int64))) :
    reduceCol c = c := by
  unfold reduceCol
  rw [if_pos hnum, if_pos hik, if_neg h8, if_neg h16, if_neg h32, if_neg h64]

lemma reduceCol_f16 (c : Col) (hnum : c.dtype ∈ numerics)
    (hik : ¬(intKind c.dtype = true))
    (hf16 : ogt (colMin c.values) (dtypeMinQ .float16) ∧
      olt (colMax c.values) (dtypeMaxQ .float16)) :
    reduceCol c = astype .float16 c := by
  unfold reduceCol
  rw [if_pos hnum, if_neg hik, if_pos hf16]

lemma reduceCol_f32 (c : Col) (hnum : c.dtype ∈ numerics)
    (hik : ¬(intKind c.dtype = true))
    (hf16 : ¬(ogt (colMin c.values) (dtypeMinQ .float16) ∧
      olt (colMax c.values) (dtypeMaxQ .float16)))
    (hf32 : ogt (colMin c.values) (dtypeMinQ .float32) ∧
      olt (colMax c.values) (dtypeMaxQ .float32)) :
    reduceCol c = astype .float32 c := by
  unfold reduceCol
  rw [if_pos hnum, if_neg hik, if_neg hf16, if_pos hf32]

lemma reduceCol_f64 (c : Col) (hnum : c.dtype ∈ numerics)
    (hik : ¬(intKind c.dtype = true))
    (hf16 : ¬(ogt (colMin c.values) (dtypeMinQ .float16) ∧
      olt (colMax c.values) (dtypeMaxQ .float16)))
    (hf32 : ¬(ogt (colMin c.values) (dtypeMinQ .float32) ∧
      olt (colMax c.values) (dtypeMaxQ .float32))) :
    reduceCol c = astype .float64 c := by
  unfold reduceCol
  rw [if_pos hnum, if_neg hik, if_neg hf16, if_neg hf32]

lemma astype_dtype (t : Dtype) (c : Col) : (astype t c).dtype = t := rfl

lemma castVal_int (t : Dtype) (h : intKind t = true) (v : Val) :
    castVal t v = v := by
  cases t <;> first
  | (cases v <;> rfl)
  | exact absurd h (by decide)

lemma astype_int_eq (t : Dtype) (h : intKind t = true) (c : Col) :
    astype t c = ⟨c.name, t, c.values⟩ := by
  unfold astype
  rw [(List.map_congr_left (fun v _ => castVal_int t h v)).trans
    (List.map_id' c.values)]

lemma reduceCol_int_values (c : Col) (hik : intKind c.dtype = true) :
    (reduceCol c).values = c.values := by
  by_cases hnum : c.dtype ∈ numerics
  · by_cases h8 : ogt (colMin c.values) (dtypeMinQ .int8) ∧
        olt (colMax c.values) (dtypeMaxQ .int8)
    · rw [reduceCol_int8 c hnum hik h8, astype_int_eq .int8 rfl c]
    · by_cases h16 : ogt (colMin c.values) (dtypeMinQ .int16) ∧
          olt (colMax c.values) (dtypeMaxQ .int16)
      · rw [reduceCol_int16 c hnum hik h8 h16, astype_int_eq .int16 rfl c]
      · by_cases h32 : ogt (colMin c.values) (dtypeMinQ .int32) ∧
            olt (colMax c.values) (dtypeMaxQ .int32)
        · rw [reduceCol_int32 c hnum hik h8 h16 h32,
            astype_int_eq .int32 rfl c]
        · by_cases h64 : ogt (colMin c.values) (dtypeMinQ .int64) ∧
              olt (colMax c.values) (dtypeMaxQ .int64)
          · rw [reduceCol_int64 c hnum hik h8 h16 h32 h64,
              astype_int_eq .int64 rfl c]
          · rw [reduceCol_int_none c hnum hik h8 h16 h32 h64]
  · rw [reduceCol_not_numeric c hnum]

lemma reduceCol_cast_values (c : Col) :
    (reduceCol c).values = c.values.map (castVal (reduceCol c).dtype) := by
  by_cases hnum : c.dtype ∈ numerics
  · by_cases hik : intKind c.dtype = true
    · by_cases h8 : ogt (colMin c.values) (dtypeMinQ .int8) ∧
          olt (colMax c.values) (dtypeMaxQ .int8)
      · rw [reduceCol_int8 c hnum hik h8]
        rfl
      · by_cases h16 : ogt (colMin c.values) (dtypeMinQ .int16) ∧
            olt (colMax c.values) (dtypeMaxQ .int16)
        · rw [reduceCol_int16 c hnum hik h8 h16]
          rfl
        · by_cases h32 : ogt (colMin c.values) (dtypeMinQ .int32) ∧
              olt (colMax c.values) (dtypeMaxQ .int32)
          · rw [reduceCol_int32 c hnum hik h8 h16 h32]
            rfl
          · by_cases h64 : ogt (colMin c.values) (dtypeMinQ .int64) ∧
                olt (colMax c.values) (dtypeMaxQ .int64)
            · rw [reduceCol_int64 c hnum hik h8 h16 h32 h64]
              rfl
            · rw [reduceCol_int_none c hnum hik h8 h16 h32 h64]
              exact ((List.map_congr_left
                (fun v _ => castVal_int c.dtype hik v)).trans
                (List.map_id' c.values)).symm
    · by_cases hf16 : ogt (colMin c.values) (dtypeMinQ .float16) ∧
          olt (colMax c.values) (dtypeMaxQ .float16)
      · rw [reduceCol_f16 c hnum hik hf16]
        rfl
      · by_cases hf32 : ogt (colMin c.values) (dtypeMinQ .float32) ∧
            olt (colMax c.values) (dtypeMaxQ .float32)
        · rw [reduceCol_f32 c hnum hik hf16 hf32]
          rfl
        · rw [reduceCol_f64 c hnum hik hf16 hf32]
          rfl
  · rw [reduceCol_not_numeric c hnum]
    cases hd : c.dtype
    · exact ((List.map_congr_left (fun v _ => castVal_int .int8 rfl v)).trans
        (List.map_id' c.values)).symm
    · rw [hd] at hnum
      exact absurd (by decide) hnum
    · rw [hd] at hnum
      exact absurd (by decide) hnum
    · rw [hd] at hnum
      exact absurd (by decide) hnum
    · rw [hd] at hnum
      exact absurd (by decide) hnum
    · rw [hd] at hnum
      exact absurd (by decide) hnum
    · rw [hd] at hnum
      exact absurd (by decide) hnum
    · exact ((List.map_congr_left
        (fun v (_ : v ∈ c.values) => show castVal .obj v = v by
          cases v <;> rfl)).trans (List.map_id' c.values)).symm

lemma reduceCol_idem_of_values (c : Col)
    (hv : (reduceCol c).values = c.values) :
    reduceCol (reduceCol c) = reduceCol c := by
  by_cases hnum : c.dtype ∈ numerics
  · by_cases hik : intKind c.dtype = true
    · by_cases h8 : ogt (colMin c.values) (dtypeMinQ .int8) ∧
          olt (colMax c.values) (dtypeMaxQ .int8)
      · rw [reduceCol_int8 c hnum hik h8, astype_int_eq .int8 rfl c]
        exact reduceCol_not_numeric _ (show Dtype.int8 ∉ numerics by decide)
      · by_cases h16 : ogt (colMin c.values) (dtypeMinQ .int16) ∧
            olt (colMax c.values) (dtypeMaxQ .int16)
        · rw [reduceCol_int16 c hnum hik h8 h16, astype_int_eq .int16 rfl c,
            reduceCol_int16 ⟨c.name, Dtype.int16, c.values⟩
              (show Dtype.int16 ∈ numerics by decide) rfl h8 h16]
          exact astype_int_eq .int16 rfl c
        · by_cases h32 : ogt (colMin c.values) (dtypeMinQ .int32) ∧
              olt (colMax c.values) (dtypeMaxQ .int32)
          · rw [reduceCol_int32 c hnum hik h8 h16 h32,
              astype_int_eq .int32 rfl c,
              reduceCol_int32 ⟨c.name, Dtype.int32, c.values⟩
                (show Dtype.int32 ∈ numerics by decide) rfl h8 h16 h32]
            exact astype_int_eq .int32 rfl c
          · by_cases h64 : ogt (colMin c.values) (dtypeMinQ .int64) ∧
                olt (colMax c.values) (dtypeMaxQ .int64)
            · rw [reduceCol_int64 c hnum hik h8 h16 h32 h64,
                astype_int_eq .int64 rfl c,
                reduceCol_int64 ⟨c.name, Dtype.int64, c.values⟩
                  (show Dtype.int64 ∈ numerics by decide) rfl h8 h16 h32 h64]
              exact astype_int_eq .int64 rfl c
            · rw [reduceCol_int_none c hnum hik h8 h16 h32 h64]
              exact reduceCol_int_none c hnum hik h8 h16 h32 h64
    · by_cases hf16 : ogt (colMin c.values) (dtypeMinQ .float16) ∧
          olt (colMax c.values) (dtypeMaxQ .float16)
      · have he := reduceCol_f16 c hnum hik hf16
        rw [he] at hv
        have hmap : c.values.map (castVal Dtype.float16) = c.values := hv
        have hcol : astype .float16 c = ⟨c.name, Dtype.float16, c.values⟩ := by
          unfold astype
          rw [hmap]
        rw [he, hcol, reduceCol_f16 ⟨c.name, Dtype.float16, c.values⟩
          (show Dtype.float16 ∈ numerics by decide)
          (show ¬(intKind Dtype.float16 = true) by decide) hf16]
        exact hcol
      · by_cases hf32 : ogt (colMin c.values) (dtypeMinQ .float32) ∧
            olt (colMax c.values) (dtypeMaxQ .float32)
        · have he := reduceCol_f32 c hnum hik hf16 hf32
          rw [he] at hv
          have hmap : c.values.map (castVal Dtype.float32) = c.values := hv
          have hcol : astype .float32 c
              = ⟨c.name, Dtype.float32, c.values⟩ := by
            unfold astype
            rw [hmap]
          rw [he, hcol, reduceCol_f32 ⟨c.name, Dtype.float32, c.values⟩
            (show Dtype.float32 ∈ numerics by decide)
            (show ¬(intKind Dtype.float32 = true) by decide) hf16 hf32]
          exact hcol
        · have he := reduceCol_f64 c hnum hik hf16 hf32
          rw [he] at hv
          have hmap : c.values.map (castVal Dtype.float64) = c.values := hv
          have hcol : astype .float64 c
              = ⟨c.name, Dtype.float64, c.values⟩ := by
            unfold astype
            rw [hmap]
          rw [he, hcol, reduceCol_f64 ⟨c.name, Dtype.float64, c.values⟩
            (show Dtype.float64 ∈ numerics by decide)
            (show ¬(intKind Dtype.float64 = true) by decide) hf16 hf32]
          exact hcol
  · rw [reduceCol_not_numeric c hnum]
    exact reduceCol_not_numeric c hnum

lemma rne_intCast (n : ℤ) : rne (n : ℚ) = n := by
  unfold rne
  rw [Int.floor_intCast, if_pos (by norm_num)]

lemma int_log2_eq (q : ℚ) (k : Nat) (h1 : (2 : ℚ) ^ k ≤ q)
    (h2 : q < 2 ^ (k + 1)) : Int.log 2 q = k := by
  have hq1 : (1 : ℚ) ≤ q := le_trans (one_le_pow₀ (by norm_num)) h1
  have hq0 : (0 : ℚ) ≤ q := le_trans zero_le_one hq1
  rw [Int.log_of_one_le_right _ hq1]
  have hl : 2 ^ k ≤ ⌊q⌋₊ := Nat.le_floor (by exact_mod_cast h1)
  have hu : ⌊q⌋₊ < 2 ^ (k + 1) := by
    rw [Nat.floor_lt hq0]
    exact_mod_cast h2
  rw [Nat.log_eq_of_pow_le_of_lt_pow hl hu]

lemma fpRound_eq (p : Nat) (emin : Int) (q : ℚ) (e : ℤ) (hq : q ≠ 0)
    (hlog : max (Int.log 2 |q|) emin = e) :
    fpRound p emin q
      = (rne (q / (2 : ℚ) ^ (e - ((p : Int) - 1))) : ℚ) *
          (2 : ℚ) ^ (e - ((p : Int) - 1)) := by
  unfold fpRound
  rw [if_neg hq, hlog]

lemma fpRound16_65503 : fpRound 11 (-14) (65503 : ℚ) = 65504 := by
  have habs : |(65503 : ℚ)| = 65503 := abs_of_nonneg (by norm_num)
  have hlog : Int.log 2 (65503 : ℚ) = 15 :=
    int_log2_eq _ 15 (by norm_num) (by norm_num)
  rw [fpRound_eq 11 (-14) _ 15 (by norm_num)
    (by rw [habs, hlog]; norm_num)]
  have he2 : (15 : ℤ) - (((11 : Nat) : ℤ) - 1) = 5 := by norm_num
  rw [he2, show ((2 : ℚ) ^ (5 : ℤ)) = 32 by norm_num]
  have hfl : ⌊(65503 : ℚ) / 32⌋ = 2046 := by
    rw [Int.floor_eq_iff]
    norm_num
  have hrne : rne ((65503 : ℚ) / 32) = 2047 := by
    unfold rne
    rw [hfl, if_neg (by norm_num), if_pos (by norm_num)]
    decide
  rw [hrne]
  norm_num

lemma fpRound32_65504 : fpRound 24 (-126) (65504 : ℚ) = 65504 := by
  have habs : |(65504 : ℚ)| = 65504 := abs_of_nonneg (by norm_num)
  have hlog : Int.log 2 (65504 : ℚ) = 15 :=
    int_log2_eq _ 15 (by norm_num) (by norm_num)
  rw [fpRound_eq 24 (-126) _ 15 (by norm_num)
    (by rw [habs, hlog]; norm_num)]
  have he2 : (15 : ℤ) - (((24 : Nat) : ℤ) - 1) = -8 := by norm_num
  rw [he2, show ((2 : ℚ) ^ (-8 : ℤ)) = 1 / 256 by norm_num,
    show ((65504 : ℚ) / (1 / 256)) = ((16769024 : ℤ) : ℚ) by norm_num,
    rne_intCast]
  norm_num

lemma reduce_once_65503 :
    (reduce_dtypes [⟨"x", Dtype.float64, [Val.f 65503]⟩] true).1
      = [⟨"x", Dtype.float16, [Val.f 65504]⟩] := by
  have hred : reduceCol ⟨"x", Dtype.float64, [Val.f 65503]⟩
      = astype .float16 ⟨"x", Dtype.float64, [Val.f 65503]⟩ :=
    reduceCol_f16 _ (by decide) (by decide) ⟨by decide, by decide⟩
  rw [reduce_fst, List.map_cons, List.map_nil, hred]
  unfold astype
  rw [List.map_cons, List.map_nil,
    show castVal Dtype.float16 (Val.f 65503)
      = Val.f (fpRound 11 (-14) 65503) from rfl, fpRound16_65503]

lemma reduce_once_65504_f16 :
    (reduce_dtypes [⟨"x", Dtype.float16, [Val.f 65504]⟩] true).1
      = [⟨"x", Dtype.float32, [Val.f 65504]⟩] := by
  have hred : reduceCol ⟨"x", Dtype.float16, [Val.f 65504]⟩
      = astype .float32 ⟨"x", Dtype.float16, [Val.f 65504]⟩ :=
    reduceCol_f32 _ (by decide) (by decide) (by decide)
      ⟨by decide, by decide⟩
  rw [reduce_fst, List.map_cons, List.map_nil, hred]
  unfold astype
  rw [List.map_cons, List.map_nil,
    show castVal Dtype.float32 (Val.f 65504)
      = Val.f (fpRound 24 (-126) 65504) from rfl, fpRound32_65504]

/-! ## Claim theorems -/

/-- C2 counterexample: `astype` to a narrower float dtype rounds cell
values — a float64 column holding 65503 is downcast to float16 and
comes back holding 65504, so "row values unchanged, only the storage
type changes" is false of the code. -/
theorem reduce_dtypes_changes_float_values :
    (reduce_dtypes [⟨"x", Dtype.float64, [Val.f 65503]⟩] true).1
      = [⟨"x", Dtype.float16, [Val.f 65504]⟩] ∧
    Val.f (65504 : ℚ) ≠ Val.f (65503 : ℚ) := by
  refine ⟨reduce_once_65503, ?_⟩
  intro h
  simp only [Val.f.injEq] at h
  exact absurd h (by norm_num)

/-- C2 amended: `reduce_dtypes` keeps the column order and every
column's name, leaves non-numeric columns completely untouched, keeps
integer columns' values unchanged, and in general returns, for every
column, exactly the original cells cast one-by-one into the column's
resulting dtype — the identity cast except for float targets, which
round each cell to the target precision. -/
theorem reduce_dtypes_frame_effect_amended (df : DataFrame) (v : Bool) :
    ((reduce_dtypes df v).1).map Col.name = df.map Col.name ∧
    (∀ (i : Nat) (c : Col), df[i]? = some c → c.dtype ∉ numerics →
      ((reduce_dtypes df v).1)[i]? = some c) ∧
    (∀ (i : Nat) (c : Col), df[i]? = some c → intKind c.dtype = true →
      ∃ c', ((reduce_dtypes df v).1)[i]? = some c' ∧ c'.name = c.name ∧
        c'.values = c.values) ∧
    (∀ (i : Nat) (c : Col), df[i]? = some c →
      ∃ c', ((reduce_dtypes df v).1)[i]? = some c' ∧ c'.name = c.name ∧
        c'.values = c.values.map (castVal c'.dtype)) := by
  refine ⟨?_, ?_, ?_, ?_⟩
  · rw [reduce_fst, List.map_map]
    exact List.map_congr_left (fun c _ => reduceCol_name c)
  · intro i c hc hnn
    rw [reduce_fst, List.getElem?_map, hc, Option.map_some',
      reduceCol_not_numeric c hnn]
  · intro i c hc hik
    refine ⟨reduceCol c, ?_, reduceCol_name c, reduceCol_int_values c hik⟩
    rw [reduce_fst, List.getElem?_map, hc, Option.map_some']
  · intro i c hc
    refine ⟨reduceCol c, ?_, reduceCol_name c, reduceCol_cast_values c⟩
    rw [reduce_fst, List.getElem?_map, hc, Option.map_some']

/-- Witness for C2 (amended): the non-numeric conjunct at a string
column and the integer-value conjunct at an int64 column. -/
theorem reduce_dtypes_frame_effect_amended_witness :
    ((reduce_dtypes [⟨"s", Dtype.obj, [Val.s "x"]⟩] true).1)[0]? =
      some ⟨"s", Dtype.obj, [Val.s "x"]⟩ ∧
    ∃ c', ((reduce_dtypes [⟨"a", Dtype.int64, [Val.i 5]⟩] true).1)[0]?
        = some c' ∧
      c'.name = (⟨"a", Dtype.int64, [Val.i 5]⟩ : Col).name ∧
      c'.values = (⟨"a", Dtype.int64, [Val.i 5]⟩ : Col).values :=
  ⟨(reduce_dtypes_frame_effect_amended [⟨"s", Dtype.obj, [Val.s "x"]⟩]
      true).2.1 0 ⟨"s", Dtype.obj, [Val.s "x"]⟩ (by decide) (by decide),
   (reduce_dtypes_frame_effect_amended [⟨"a", Dtype.int64, [Val.i 5]⟩]
      true).2.2.1 0 ⟨"a", Dtype.int64, [Val.i 5]⟩ (by decide) rfl⟩

/-- C3 counterexample: an empty `float16` column is **not** a no-op:
`reduce_dtypes` retypes it to `float64` (the `NaN` min/max fail both
float range checks, so the unconditional `else: astype(float64)`
branch fires). -/
theorem reduce_dtypes_empty_float16_not_noop :
    (reduce_dtypes [⟨"a", Dtype.float16, []⟩] true).1
      = [⟨"a", Dtype.float64, []⟩] ∧
    Dtype.float64 ≠ Dtype.float16 := by decide

/-- C3 amended: an empty column is a no-op when its dtype is
integer-kinded, non-numeric, or `float64`; an empty `float16` or
`float32` column keeps its (empty) contents but is retyped to
`float64` by the unconditional float fallback branch. -/
theorem reduce_dtypes_empty_col (df : DataFrame) (v : Bool) (i : Nat) (c : Col)
    (hc : df[i]? = some c) (he : c.values = []) :
    ((reduce_dtypes df v).1)[i]? =
      some ⟨c.name,
            if c.dtype = .float16 ∨ c.dtype = .float32 then .float64
            else c.dtype,
            c.values⟩ := by
  rw [reduce_fst, List.getElem?_map, hc, Option.map_some']
  obtain ⟨nm, d, vs⟩ := c
  dsimp only at he
  subst he
  cases d <;> rfl

/-- Witness for C3 (amended): an empty `int64` column is left
unchanged. -/
theorem reduce_dtypes_empty_col_witness :
    ((reduce_dtypes [⟨"a", Dtype.int64, []⟩] true).1)[0]? =
      some ⟨"a", if Dtype.int64 = .float16 ∨ Dtype.int64 = .float32
                 then Dtype.float64 else Dtype.int64, []⟩ :=
  reduce_dtypes_empty_col [⟨"a", Dtype.int64, []⟩] true 0
    ⟨"a", Dtype.int64, []⟩ (by decide) rfl

/-- C6 counterexample: `reduce_dtypes` is not idempotent.  A float64
column holding 65503 is downcast to float16, where the cell rounds up
to 65504 — exactly float16's max; the second application then fails
the strict check `65504 < 65504` and moves the column to float32, so
the first output is not a fixed point. -/
theorem reduce_dtypes_not_idempotent :
    (reduce_dtypes [⟨"x", Dtype.float64, [Val.f 65503]⟩] true).1
      = [⟨"x", Dtype.float16, [Val.f 65504]⟩] ∧
    (reduce_dtypes [⟨"x", Dtype.float16, [Val.f 65504]⟩] true).1
      = [⟨"x", Dtype.float32, [Val.f 65504]⟩] ∧
    (reduce_dtypes
        (reduce_dtypes [⟨"x", Dtype.float64, [Val.f 65503]⟩] true).1
        true).1
      ≠ (reduce_dtypes [⟨"x", Dtype.float64, [Val.f 65503]⟩] true).1 := by
  refine ⟨reduce_once_65503, reduce_once_65504_f16, ?_⟩
  rw [reduce_once_65503, reduce_once_65504_f16]
  decide

/-- C6 amended: `reduce_dtypes` is idempotent on every table whose
first application leaves all cell values unchanged — in particular on
tables of integer and non-numeric columns, whose conversions are
exact: the second application reselects every branch and returns an
identical frame.  In general a float downcast may round a cell, and
the rounded column can select a different dtype on the second pass. -/
theorem reduce_dtypes_idempotent_of_values_preserved (df : DataFrame)
    (v w : Bool)
    (hvals : ((reduce_dtypes df v).1).map Col.values = df.map Col.values) :
    (reduce_dtypes (reduce_dtypes df v).1 w).1 = (reduce_dtypes df v).1 := by
  rw [reduce_fst df v] at hvals ⊢
  rw [reduce_fst, List.map_map]
  apply List.ext_getElem?
  intro i
  rw [List.getElem?_map, List.getElem?_map]
  cases hdi : df[i]? with
  | none => rfl
  | some c =>
    have hv : (reduceCol c).values = c.values := by
      have h3 := congrArg (fun l => l[i]?) hvals
      simp only [List.getElem?_map, hdi, Option.map_some'] at h3
      exact Option.some.inj h3
    simp only [Option.map_some']
    exact congrArg some (reduceCol_idem_of_values c hv)

/-- Witness for C6 (amended): an integer frame — the downcast keeps
its values, and its output is a fixed point. -/
theorem reduce_dtypes_idempotent_of_values_preserved_witness :
    (reduce_dtypes
        (reduce_dtypes [⟨"a", Dtype.int64, [Val.i 5]⟩] true).1 true).1
      = (reduce_dtypes [⟨"a", Dtype.int64, [Val.i 5]⟩] true).1 :=
  reduce_dtypes_idempotent_of_values_preserved
    [⟨"a", Dtype.int64, [Val.i 5]⟩] true true (by decide)

/-- C9: the verbose memory report is a pure side channel — the frame
returned with `verbose=True` equals the frame returned with
`verbose=False`. -/
theorem reduce_dtypes_verbose_independent (df : DataFrame) :
    (reduce_dtypes df true).1 = (reduce_dtypes df false).1 := rfl

/-- C10: `int8` is absent from the `numerics` list, so a column whose
declared dtype is already `int8` is skipped by `reduce_dtypes` and
left completely unchanged. -/
theorem reduce_dtypes_skips_int8 :
    Dtype.int8 ∉ numerics ∧
    ∀ (df : DataFrame) (v : Bool) (i : Nat) (c : Col),
      df[i]? = some c → c.dtype = Dtype.int8 →
      ((reduce_dtypes df v).1)[i]? = some c := by
  refine ⟨by decide, ?_⟩
  intro df v i c hc hd
  rw [reduce_fst, List.getElem?_map, hc, Option.map_some',
    reduceCol_not_numeric c (by rw [hd]; decide)]

/-- Witness for C10: an `int8` column holding 200 (out of `int8` range,
stored values modelled exactly) is left untouched. -/
theorem reduce_dtypes_skips_int8_witness :
    ((reduce_dtypes [⟨"a", Dtype.int8, [Val.i 200]⟩] true).1)[0]? =
      some ⟨"a", Dtype.int8, [Val.i 200]⟩ :=
  reduce_dtypes_skips_int8.2 [⟨"a", Dtype.int8, [Val.i 200]⟩] true 0
    ⟨"a", Dtype.int8, [Val.i 200]⟩ (by decide) rfl

/-- C1 counterexample: an `int64` column holding exactly `int64.max`
is processed but converted by no branch (the strict check
`c_max < np.iinfo(np.int64).max` fails), so the resulting dtype does
**not** satisfy `max(column) < T.max`. -/
theorem reduce_dtypes_strict_bounds_fail_at_int64_max :
    (reduce_dtypes [⟨"a", Dtype.int64, [Val.i 9223372036854775807]⟩] true).1
      = [⟨"a", Dtype.int64, [Val.i 9223372036854775807]⟩] ∧
    colMax [Val.i 9223372036854775807] = some (9223372036854775807 : ℚ) ∧
    ¬((9223372036854775807 : ℚ) < dtypeMaxQ Dtype.int64) := by decide

/-- C1 amended: for every non-empty integer column that `reduce_dtypes`
actually processes (dtype in the `numerics` list, i.e. int16/int32/int64
— int8 columns are skipped) and whose min/max lie strictly inside the
int64 range, the resulting dtype `T` satisfies
`min > T.min ∧ max < T.max` and no narrower candidate in
int8 → int16 → int32 → int64 also satisfies these strict bounds. -/
theorem reduce_dtypes_int_minimality (df : DataFrame) (v : Bool) (i : Nat)
    (c : Col) (hc : df[i]? = some c)
    (hd : c.dtype = .int16 ∨ c.dtype = .int32 ∨ c.dtype = .int64)
    (m M : ℚ) (hm : colMin c.values = some m) (hM : colMax c.values = some M)
    (hlo : dtypeMinQ .int64 < m) (hhi : M < dtypeMaxQ .int64) :
    ∃ c', ((reduce_dtypes df v).1)[i]? = some c' ∧
      c'.name = c.name ∧ c'.values = c.values ∧
      dtypeMinQ c'.dtype < m ∧ M < dtypeMaxQ c'.dtype ∧
      ∀ d ∈ intCandidates, dtypeMinQ d < m ∧ M < dtypeMaxQ d →
        itemsize c'.dtype ≤ itemsize d := by
  have hnum : c.dtype ∈ numerics := by
    rcases hd with h | h | h <;> rw [h] <;> decide
  have hik : intKind c.dtype = true := by
    rcases hd with h | h | h <;> rw [h] <;> decide
  by_cases h8 : dtypeMinQ .int8 < m ∧ M < dtypeMaxQ .int8
  · refine ⟨⟨c.name, Dtype.int8, c.values⟩, ?_, rfl, rfl, h8.1, h8.2, ?_⟩
    · rw [reduce_fst, List.getElem?_map, hc, Option.map_some',
        reduceCol_int8 c hnum hik
          ⟨by rw [hm]; exact h8.1, by rw [hM]; exact h8.2⟩,
        astype_int_eq .int8 rfl c]
    · intro d hd2 _
      simp only [intCandidates, List.mem_cons, List.not_mem_nil,
        or_false] at hd2
      rcases hd2 with rfl | rfl | rfl | rfl <;>
        norm_num [itemsize, astype]
  · by_cases h16 : dtypeMinQ .int16 < m ∧ M < dtypeMaxQ .int16
    · refine ⟨⟨c.name, Dtype.int16, c.values⟩, ?_, rfl, rfl, h16.1, h16.2, ?_⟩
      · rw [reduce_fst, List.getElem?_map, hc, Option.map_some',
          reduceCol_int16 c hnum hik (by rw [hm, hM]; exact h8)
            ⟨by rw [hm]; exact h16.1, by rw [hM]; exact h16.2⟩,
          astype_int_eq .int16 rfl c]
      · intro d hd2 hfit
        simp only [intCandidates, List.mem_cons, List.not_mem_nil,
          or_false] at hd2
        rcases hd2 with rfl | rfl | rfl | rfl
        · exact absurd hfit h8
        all_goals norm_num [itemsize, astype]
    · by_cases h32 : dtypeMinQ .int32 < m ∧ M < dtypeMaxQ .int32
      · refine ⟨⟨c.name, Dtype.int32, c.values⟩, ?_, rfl, rfl, h32.1, h32.2, ?_⟩
        · rw [reduce_fst, List.getElem?_map, hc, Option.map_some',
            reduceCol_int32 c hnum hik (by rw [hm, hM]; exact h8)
              (by rw [hm, hM]; exact h16)
              ⟨by rw [hm]; exact h32.1, by rw [hM]; exact h32.2⟩,
            astype_int_eq .int32 rfl c]
        · intro d hd2 hfit
          simp only [intCandidates, List.mem_cons, List.not_mem_nil,
            or_false] at hd2
          rcases hd2 with rfl | rfl | rfl | rfl
          · exact absurd hfit h8
          · exact absurd hfit h16
          all_goals norm_num [itemsize, astype]
      · refine ⟨⟨c.name, Dtype.int64, c.values⟩, ?_, rfl, rfl, hlo, hhi, ?_⟩
        · rw [reduce_fst, List.getElem?_map, hc, Option.map_some',
            reduceCol_int64 c hnum hik (by rw [hm, hM]; exact h8)
              (by rw [hm, hM]; exact h16) (by rw [hm, hM]; exact h32)
              ⟨by rw [hm]; exact hlo, by rw [hM]; exact hhi⟩,
            astype_int_eq .int64 rfl c]
        · intro d hd2 hfit
          simp only [intCandidates, List.mem_cons, List.not_mem_nil,
            or_false] at hd2
          rcases hd2 with rfl | rfl | rfl | rfl
          · exact absurd hfit h8
          · exact absurd hfit h16
          · exact absurd hfit h32
          · norm_num [itemsize, astype]

/-- Witness for C1 (amended): an `int64` column holding 5 downcasts to
the minimal strict-fitting dtype. -/
theorem reduce_dtypes_int_minimality_witness :
    ∃ c', ((reduce_dtypes [⟨"a", Dtype.int64, [Val.i 5]⟩] true).1)[0]?
        = some c' ∧
      c'.name = (⟨"a", Dtype.int64, [Val.i 5]⟩ : Col).name ∧
      c'.values = (⟨"a", Dtype.int64, [Val.i 5]⟩ : Col).values ∧
      dtypeMinQ c'.dtype < 5 ∧ (5 : ℚ) < dtypeMaxQ c'.dtype ∧
      ∀ d ∈ intCandidates, dtypeMinQ d < 5 ∧ (5 : ℚ) < dtypeMaxQ d →
        itemsize c'.dtype ≤ itemsize d :=
  reduce_dtypes_int_minimality [⟨"a", Dtype.int64, [Val.i 5]⟩] true 0
    ⟨"a", Dtype.int64, [Val.i 5]⟩ (by decide) (Or.inr (Or.inr rfl))
    5 5 (by decide) (by decide) (by decide) (by decide)

/-- C4: a processed integer column (dtype int16/int32/int64) whose
maximum is exactly `int8.max = 127` and whose minimum exceeds
`int8.min` is promoted to `int16`, not kept at int8 width: the strict
check `c_max < 127` rejects the boundary value. -/
theorem reduce_dtypes_int8max_promoted (df : DataFrame) (v : Bool) (i : Nat)
    (c : Col) (hc : df[i]? = some c)
    (hd : c.dtype = .int16 ∨ c.dtype = .int32 ∨ c.dtype = .int64)
    (m : ℚ) (hm : colMin c.values = some m)
    (hM : colMax c.values = some 127) (hfit : dtypeMinQ .int8 < m) :
    ((reduce_dtypes df v).1)[i]? = some ⟨c.name, Dtype.int16, c.values⟩ ∧
    Dtype.int16 ≠ Dtype.int8 := by
  have hnum : c.dtype ∈ numerics := by
    rcases hd with h | h | h <;> rw [h] <;> decide
  have hik : intKind c.dtype = true := by
    rcases hd with h | h | h <;> rw [h] <;> decide
  refine ⟨?_, by decide⟩
  rw [reduce_fst, List.getElem?_map, hc, Option.map_some',
    reduceCol_int16 c hnum hik
      (by rw [hM]; exact fun h => lt_irrefl _ h.2)
      ⟨by rw [hm]
          exact lt_trans (by norm_num [dtypeMinQ]) hfit,
       by rw [hM]
          show (127 : ℚ) < dtypeMaxQ .int16
          norm_num [dtypeMaxQ]⟩,
    astype_int_eq .int16 rfl c]

/-- Witness for C4: `[0, 127]` stored as int64 becomes int16. -/
theorem reduce_dtypes_int8max_promoted_witness :
    ((reduce_dtypes [⟨"a", Dtype.int64, [Val.i 0, Val.i 127]⟩] true).1)[0]?
      = some ⟨"a", Dtype.int16, [Val.i 0, Val.i 127]⟩ ∧
    Dtype.int16 ≠ Dtype.int8 :=
  reduce_dtypes_int8max_promoted [⟨"a", Dtype.int64, [Val.i 0, Val.i 127]⟩]
    true 0 ⟨"a", Dtype.int64, [Val.i 0, Val.i 127]⟩ (by decide)
    (Or.inr (Or.inr rfl)) 0 (by decide) (by decide) (by decide)

/-- C5: for a non-empty floating column (finite min and max),
`reduce_dtypes` assigns the narrowest of float16 and float32 whose
representable range strictly contains `[min, max]`, and float64
unconditionally when neither fits. -/
theorem reduce_dtypes_float_selection (df : DataFrame) (v : Bool) (i : Nat)
    (c : Col) (hc : df[i]? = some c)
    (hd : c.dtype = .float16 ∨ c.dtype = .float32 ∨ c.dtype = .float64)
    (m M : ℚ) (hm : colMin c.values = some m)
    (hM : colMax c.values = some M) :
    (((reduce_dtypes df v).1)[i]?).map Col.dtype =
      some (if dtypeMinQ .float16 < m ∧ M < dtypeMaxQ .float16 then
              Dtype.float16
            else if dtypeMinQ .float32 < m ∧ M < dtypeMaxQ .float32 then
              Dtype.float32
            else Dtype.float64) := by
  have hnum : c.dtype ∈ numerics := by
    rcases hd with h | h | h <;> rw [h] <;> decide
  have hik : ¬(intKind c.dtype = true) := by
    rcases hd with h | h | h <;> rw [h] <;> decide
  simp only [reduce_fst, List.getElem?_map, hc, Option.map_some']
  by_cases hf16 : dtypeMinQ .float16 < m ∧ M < dtypeMaxQ .float16
  · rw [reduceCol_f16 c hnum hik
      ⟨by rw [hm]; exact hf16.1, by rw [hM]; exact hf16.2⟩, if_pos hf16]
    rfl
  · by_cases hf32 : dtypeMinQ .float32 < m ∧ M < dtypeMaxQ .float32
    · rw [reduceCol_f32 c hnum hik (by rw [hm, hM]; exact hf16)
        ⟨by rw [hm]; exact hf32.1, by rw [hM]; exact hf32.2⟩,
        if_neg hf16, if_pos hf32]
      rfl
    · rw [reduceCol_f64 c hnum hik (by rw [hm, hM]; exact hf16)
        (by rw [hm, hM]; exact hf32), if_neg hf16, if_neg hf32]
      rfl

/-- Witness for C5: a float64 column holding 100000 (beyond float16's
±65504, inside float32's range) gets dtype float32. -/
theorem reduce_dtypes_float_selection_witness :
    (((reduce_dtypes [⟨"x", Dtype.float64, [Val.f 100000]⟩]
        true).1)[0]?).map Col.dtype =
      some (if dtypeMinQ .float16 < (100000 : ℚ) ∧
              (100000 : ℚ) < dtypeMaxQ .float16 then Dtype.float16
            else if dtypeMinQ .float32 < (100000 : ℚ) ∧
              (100000 : ℚ) < dtypeMaxQ .float32 then Dtype.float32
            else Dtype.float64) :=
  reduce_dtypes_float_selection [⟨"x", Dtype.float64, [Val.f 100000]⟩]
    true 0 ⟨"x", Dtype.float64, [Val.f 100000]⟩ (by decide)
    (Or.inr (Or.inr rfl)) 100000 100000 (by decide) (by decide)

/-! ## `size_of_fmt` (lines 29–46 of the source) -/

/-- `"%3.1f" % q`: one decimal place, rounding to the nearest tenth
(`round` = half-up; the C tie-breaking on the underlying binary double
and the sign of a negative zero are beyond the claims verified here).
The minimum field width 3 never pads, because a rendered `d.d` already
has three characters. -/
def fmt1 (q : ℚ) : String :=
  (if round (q * 10) < 0 then "-" else "")
    ++ toString ((round (q * 10)).natAbs / 10) ++ "."
    ++ toString ((round (q * 10)).natAbs % 10)

/-- The unit-prefix list `['','Ki','Mi','Gi','Ti','Pi','Ei','Zi']` of
the `for unit in ...` loop. -/
def sizeUnits : List String := ["", "Ki", "Mi", "Gi", "Ti", "Pi", "Ei", "Zi"]

/-- The `for unit in [...]` loop of `size_of_fmt`: emit at the first
unit where `abs(num) < 1024.0`, otherwise divide by 1024 and continue;
after the loop fall back to `'Yi'`.  (Dividing a double by 1024 is
exact scaling, so exact rational division is faithful.) -/
def sizeFmtGo : List String → ℚ → String → String
  | [], num, suffix => fmt1 num ++ "Yi" ++ suffix
  | unit :: units, num, suffix =>
    if |num| < 1024 then fmt1 num ++ unit ++ suffix
    else sizeFmtGo units (num / 1024) suffix

/-- `size_of_fmt(num, suffix='B')`. -/
def size_of_fmt (num : ℚ) (suffix : String := "B") : String :=
  sizeFmtGo sizeUnits num suffix

lemma fmt1_zero : fmt1 0 = "0.0" := by
  have h : round ((0 : ℚ) * 10) = 0 := by norm_num
  simp only [fmt1, h]
  decide

lemma fmt1_one : fmt1 1 = "1.0" := by
  have h : round ((1 : ℚ) * 10) = 10 := by
    rw [show ((1 : ℚ) * 10) = ((10 : ℤ) : ℚ) by norm_num, round_intCast]
  simp only [fmt1, h]
  decide

lemma fmt1_1023 : fmt1 1023 = "1023.0" := by
  have h : round ((1023 : ℚ) * 10) = 10230 := by
    rw [show ((1023 : ℚ) * 10) = ((10230 : ℤ) : ℚ) by norm_num, round_intCast]
  simp only [fmt1, h]
  decide

lemma div_pow_succ (x : ℚ) (m : Nat) :
    x / 1024 / 1024 ^ m = x / 1024 ^ (m + 1) := by
  rw [div_div, ← pow_succ']

lemma abs_div_1024 (n : ℚ) : |n / 1024| = |n| / 1024 := by
  rw [abs_div]
  norm_num

lemma sizeFmtGo_first (us : List String) (n : ℚ) (s : String) (k : Nat)
    (hk : k < us.length)
    (hge : ∀ m, m < k → 1024 ≤ |n| / 1024 ^ m)
    (hlt : |n| / 1024 ^ k < 1024) :
    sizeFmtGo us n s = fmt1 (n / 1024 ^ k) ++ us.getD k "" ++ s := by
  induction us generalizing n k with
  | nil => simp at hk
  | cons u us ih =>
    cases k with
    | zero =>
      have h0 : |n| < 1024 := by simpa using hlt
      simp only [sizeFmtGo, if_pos h0, List.getD]
      norm_num
    | succ k =>
      have h0 : ¬(|n| < 1024) := by
        have h := hge 0 (Nat.succ_pos k)
        simp only [pow_zero, div_one] at h
        exact not_lt.mpr h
      simp only [sizeFmtGo, if_neg h0]
      have IH := ih (n / 1024) k (Nat.lt_of_succ_lt_succ hk)
        (fun m hm => by
          rw [abs_div_1024, div_pow_succ]
          exact hge (m + 1) (Nat.succ_lt_succ hm))
        (by rw [abs_div_1024, div_pow_succ]; exact hlt)
      rw [IH, div_pow_succ]
      rfl

lemma sizeFmtGo_fallback (us : List String) (n : ℚ) (s : String)
    (hge : ∀ m, m < us.length → 1024 ≤ |n| / 1024 ^ m) :
    sizeFmtGo us n s = fmt1 (n / 1024 ^ us.length) ++ "Yi" ++ s := by
  induction us generalizing n with
  | nil => simp [sizeFmtGo]
  | cons u us ih =>
    have h0 : ¬(|n| < 1024) := by
      have h := hge 0 (Nat.succ_pos us.length)
      simp only [pow_zero, div_one] at h
      exact not_lt.mpr h
    simp only [sizeFmtGo, if_neg h0]
    have IH := ih (n / 1024)
      (fun m hm => by
        rw [abs_div_1024, div_pow_succ]
        exact hge (m + 1) (Nat.succ_lt_succ hm))
    rw [IH, div_pow_succ]
    rfl

/-- C8: `size_of_fmt` returns `"0.0B"` for 0, `"1.0KiB"` for 1024 and
`"1023.0B"` for 1023, and in general emits at the first (largest)
binary prefix in none→Ki→Mi→Gi→Ti→Pi→Ei→Zi where the scaled magnitude
drops below 1024 (one decimal place), with `Yi` as final fallback after
eight divisions. -/
theorem size_of_fmt_spec :
    size_of_fmt 0 "B" = "0.0B" ∧
    size_of_fmt 1024 "B" = "1.0KiB" ∧
    size_of_fmt 1023 "B" = "1023.0B" ∧
    (∀ (num : ℚ) (s : String) (k : Nat), k < 8 →
      (∀ m, m < k → 1024 ≤ |num| / 1024 ^ m) →
      |num| / 1024 ^ k < 1024 →
      size_of_fmt num s = fmt1 (num / 1024 ^ k) ++ sizeUnits.getD k "" ++ s) ∧
    (∀ (num : ℚ) (s : String),
      (∀ m, m < 8 → 1024 ≤ |num| / 1024 ^ m) →
      size_of_fmt num s = fmt1 (num / 1024 ^ 8) ++ "Yi" ++ s) := by
  refine ⟨?_, ?_, ?_, ?_, ?_⟩
  · have h := sizeFmtGo_first sizeUnits 0 "B" 0 (by norm_num [sizeUnits])
      (fun m hm => absurd hm (Nat.not_lt_zero m)) (by norm_num)
    rw [size_of_fmt, h, show (0 : ℚ) / 1024 ^ 0 = 0 by norm_num, fmt1_zero]
    decide
  · have h := sizeFmtGo_first sizeUnits 1024 "B" 1 (by norm_num [sizeUnits])
      (fun m hm => by
        have hm0 : m = 0 := by omega
        subst hm0
        norm_num)
      (by norm_num)
    rw [size_of_fmt, h, show (1024 : ℚ) / 1024 ^ 1 = 1 by norm_num, fmt1_one]
    decide
  · have h := sizeFmtGo_first sizeUnits 1023 "B" 0 (by norm_num [sizeUnits])
      (fun m hm => absurd hm (Nat.not_lt_zero m)) (by norm_num)
    rw [size_of_fmt, h, show (1023 : ℚ) / 1024 ^ 0 = 1023 by norm_num,
      fmt1_1023]
    decide
  · intro num s k hk hge hlt
    exact sizeFmtGo_first sizeUnits num s k hk hge hlt
  · intro num s hge
    exact sizeFmtGo_fallback sizeUnits num s hge

/-- Witness for C8: 2048 bytes scale once and render as `2.0KiB`. -/
theorem size_of_fmt_spec_witness :
    size_of_fmt 2048 "B" = fmt1 (2048 / 1024 ^ 1) ++ sizeUnits.getD 1 "" ++ "B" := by
  have habs : |(2048 : ℚ)| = 2048 := abs_of_nonneg (by norm_num)
  exact size_of_fmt_spec.2.2.2.1 2048 "B" 1 (by norm_num)
    (fun m hm => by
      have hm0 : m = 0 := by omega
      subst hm0
      rw [habs]
      norm_num)
    (by rw [habs]; norm_num)

/-! ## `merge_by_concat` (lines 105–131 of the source)

The pandas operations are embedded as follows: `df1[merge_on]` selects
the named columns in `merge_on` order; `.merge(df2, on=merge_on,
how='left')` emits, for each left row in order, one output row per
matching right row (rows with equal join-key tuples), or a single
missing-filled row when there is no match, upcasting right-side integer
columns to float64 when any missing value is introduced;
`pd.concat([...], axis=1)` outer-aligns the two default integer
indexes, padding the shorter frame's columns with missing values
(integer columns upcasting to float64 when padded).  Column-name
collisions outside the join keys (which pandas would suffix with
`_x`/`_y`) do not arise here because the left frame passed to `merge`
holds only the join-key columns. -/

/-- Number of rows of a frame (length of its first column; data frames
are well-formed when all columns agree, see `WF`). -/
def nrows (df : DataFrame) : Nat :=
  match df with
  | [] => 0
  | c :: _ => c.values.length

/-- Well-formedness: every column has the same number of rows. -/
def WF (df : DataFrame) : Prop := ∀ c ∈ df, c.values.length = nrows df

/-- `df[names]`: select the named columns, in the order of `names`. -/
def selectCols (df : DataFrame) (names : List String) : DataFrame :=
  names.filterMap (fun n => df.find? (fun c => decide (c.name = n)))

/-- The join-key tuple of row `i` of the key columns `keyCols`. -/
def keyTuple (keyCols : DataFrame) (i : Nat) : List Val :=
  keyCols.map (fun c => c.values.getD i Val.missing)

/-- Indexes `j` of right rows whose key tuple equals left row `i`'s. -/
def matchIdxs (LK RK : DataFrame) (n2 i : Nat) : List Nat :=
  (List.range n2).filter (fun j => decide (keyTuple RK j = keyTuple LK i))

/-- The output rows of a left merge, as pairs
`(left row index, matched right row index or none)`: one row per match,
or a single unmatched row. -/
def mergeRows (LK RK : DataFrame) (n1 n2 : Nat) : List (Nat × Option Nat) :=
  (List.range n1).flatMap (fun i =>
    match matchIdxs LK RK n2 i with
    | [] => [(i, none)]
    | js => js.map (fun j => (i, some j)))

/-- The left frame's columns of the merge output: each left column
replicated along the output rows. -/
def leftCols (L : DataFrame) (rows : List (Nat × Option Nat)) : DataFrame :=
  L.map (fun c =>
    ⟨c.name, c.dtype, rows.map (fun r => c.values.getD r.1 Val.missing)⟩)

/-- The right frame's non-key columns of the merge output: matched
rows take the right value, unmatched rows a missing placeholder;
integer dtypes upcast to float64 when any missing value appears. -/
def rightCols (R : DataFrame) (ks : List String)
    (rows : List (Nat × Option Nat)) : DataFrame :=
  (R.filter (fun c => !(decide (c.name ∈ ks)))).map (fun c =>
    ⟨c.name,
     if rows.any (fun r => r.2.isNone) && intKind c.dtype then Dtype.float64
     else c.dtype,
     rows.map (fun r =>
       match r.2 with
       | some j => c.values.getD j Val.missing
       | none => Val.missing)⟩)

/-- `L.merge(R, on=ks, how='left')`. -/
def pandasLeftMerge (L R : DataFrame) (ks : List String) : DataFrame :=
  leftCols L
      (mergeRows (selectCols L ks) (selectCols R ks) (nrows L) (nrows R)) ++
    rightCols R ks
      (mergeRows (selectCols L ks) (selectCols R ks) (nrows L) (nrows R))

/-- `pd.concat([a, b], axis=1)` on default integer indexes:
outer-align, padding shorter columns with missing values (integer
columns upcasting to float64 when padded). -/
def concatAxis1 (a b : DataFrame) : DataFrame :=
  (a ++ b).map (fun c =>
    if c.values.length < max (nrows a) (nrows b) then
      ⟨c.name, if intKind c.dtype then Dtype.float64 else c.dtype,
       c.values ++
         List.replicate (max (nrows a) (nrows b) - c.values.length)
           Val.missing⟩
    else c)

/-- `merged_gf = df1[merge_on].merge(df2, on=merge_on, how='left')`
(lines 120–123). -/
def mergedGf (df1 df2 : DataFrame) (merge_on : List String) : DataFrame :=
  pandasLeftMerge (selectCols df1 merge_on) df2 merge_on

/-- `new_columns = [col for col in list(merged_gf) if col not in
merge_on]` (line 126). -/
def newColumns (df1 df2 : DataFrame) (merge_on : List String) : List String :=
  ((mergedGf df1 df2 merge_on).map Col.name).filter
    (fun n => !(decide (n ∈ merge_on)))

/-- `merge_by_concat(df1, df2, merge_on)` (lines 105–131). -/
def merge_by_concat (df1 df2 : DataFrame) (merge_on : List String) :
    DataFrame :=
  concatAxis1 df1
    (selectCols (mergedGf df1 df2 merge_on) (newColumns df1 df2 merge_on))

example :
    merge_by_concat [⟨"id", .int64, [.i 1]⟩, ⟨"a", .int64, [.i 10]⟩]
      [⟨"id", .int64, [.i 1]⟩, ⟨"b", .int64, [.i 20]⟩] ["id"]
    = [⟨"id", .int64, [.i 1]⟩, ⟨"a", .int64, [.i 10]⟩,
       ⟨"b", .int64, [.i 20]⟩] := by decide

example :
    merge_by_concat [⟨"id", .int64, [.i 1]⟩, ⟨"a", .int64, [.i 10]⟩]
      [⟨"id", .int64, [.i 2]⟩, ⟨"b", .int64, [.i 20]⟩] ["id"]
    = [⟨"id", .int64, [.i 1]⟩, ⟨"a", .int64, [.i 10]⟩,
       ⟨"b", .float64, [.missing]⟩] := by decide

/-! ## Lemmas about `merge_by_concat` -/

lemma flatMap_singleton_eq_map {α β : Type} (l : List α) (f : α → List β)
    (g : α → β) (h : ∀ a ∈ l, f a = [g a]) : l.flatMap f = l.map g := by
  induction l with
  | nil => rfl
  | cons a t ih =>
    rw [List.flatMap_cons, h a (List.mem_cons_self a t),
      ih (fun b hb => h b (List.mem_cons_of_mem a hb))]
    rfl

lemma length_filter_le_one {α β : Type} [DecidableEq β] (l : List α)
    (f : α → β) (t : β) (hf : (l.map f).Nodup) :
    (l.filter (fun a => decide (f a = t))).length ≤ 1 := by
  induction l with
  | nil => simp
  | cons a t2 ih =>
    rw [List.map_cons, List.nodup_cons] at hf
    by_cases ha : f a = t
    · rw [List.filter_cons_of_pos (by simpa using ha)]
      have hnil : t2.filter (fun a => decide (f a = t)) = [] := by
        rw [List.filter_eq_nil_iff]
        intro b hb
        simp only [decide_eq_true_eq]
        intro hbt
        exact hf.1 (List.mem_map.mpr ⟨b, hb, hbt.trans ha.symm⟩)
      rw [hnil]
      simp
    · rw [List.filter_cons_of_neg (by simpa using ha)]
      exact ih hf.2

lemma selectCols_cons_none (df : DataFrame) (k : String) (rest : List String)
    (h : df.find? (fun c => decide (c.name = k)) = none) :
    selectCols df (k :: rest) = selectCols df rest := by
  unfold selectCols
  exact List.filterMap_cons_none h

lemma selectCols_cons_some (df : DataFrame) (k : String) (rest : List String)
    (c : Col) (h : df.find? (fun c => decide (c.name = k)) = some c) :
    selectCols df (k :: rest) = c :: selectCols df rest := by
  unfold selectCols
  exact List.filterMap_cons_some h

lemma nrows_selectCols (df : DataFrame) (ks : List String) (h1 : WF df)
    (hk : ∀ k ∈ ks, ∃ c ∈ df, c.name = k) (hne : ks ≠ []) :
    nrows (selectCols df ks) = nrows df := by
  cases ks with
  | nil => exact absurd rfl hne
  | cons k0 rest =>
    obtain ⟨c0, hc0mem, hc0name⟩ := hk k0 (List.mem_cons_self k0 rest)
    have hsome : (df.find? (fun c => decide (c.name = k0))).isSome := by
      rw [List.find?_isSome]
      exact ⟨c0, hc0mem, by simp [hc0name]⟩
    obtain ⟨c, hc⟩ := Option.isSome_iff_exists.mp hsome
    rw [selectCols_cons_some df k0 rest c hc]
    exact h1 c (List.mem_of_find?_eq_some hc)

lemma find?_selectCols (df : DataFrame) (ks : List String) (n : String)
    (hn : n ∈ ks) (hpres : ∃ c ∈ df, c.name = n) :
    (selectCols df ks).find? (fun c => decide (c.name = n)) =
      df.find? (fun c => decide (c.name = n)) := by
  induction ks with
  | nil => cases hn
  | cons k rest ih =>
    cases hfk : df.find? (fun c => decide (c.name = k)) with
    | none =>
      rw [selectCols_cons_none df k rest hfk]
      by_cases hnk : n = k
      · subst hnk
        obtain ⟨c0, hc0mem, hc0name⟩ := hpres
        have h2 := List.find?_eq_none.mp hfk c0 hc0mem
        simp [hc0name] at h2
      · have hn' : n ∈ rest := by
          rcases List.mem_cons.mp hn with h | h
          · exact absurd h hnk
          · exact h
        exact ih hn'
    | some c =>
      rw [selectCols_cons_some df k rest c hfk]
      have hcname : c.name = k := by
        have h3 := List.find?_some hfk
        simpa using h3
      by_cases hnk : n = k
      · subst hnk
        rw [List.find?_cons_of_pos _ (by simp [hcname])]
        rw [hfk]
      · have hn' : n ∈ rest := by
          rcases List.mem_cons.mp hn with h | h
          · exact absurd h hnk
          · exact h
        rw [List.find?_cons_of_neg _ (by simp [hcname]; exact fun h => hnk h.symm)]
        exact ih hn'

lemma filterMap_congr_mem {α β : Type} (l : List α) (f g : α → Option β)
    (h : ∀ a ∈ l, f a = g a) : l.filterMap f = l.filterMap g := by
  induction l with
  | nil => rfl
  | cons a t ih =>
    rw [List.filterMap_cons, List.filterMap_cons,
      h a (List.mem_cons_self a t),
      ih (fun b hb => h b (List.mem_cons_of_mem a hb))]

lemma selectCols_idem (df : DataFrame) (ks : List String)
    (hk : ∀ k ∈ ks, ∃ c ∈ df, c.name = k) :
    selectCols (selectCols df ks) ks = selectCols df ks :=
  filterMap_congr_mem ks _ _
    (fun n hn => find?_selectCols df ks n hn (hk n hn))

lemma mergeRows_of_unique (LK RK : DataFrame) (n1 n2 : Nat)
    (huniq : ((List.range n2).map (fun j => keyTuple RK j)).Nodup) :
    mergeRows LK RK n1 n2
      = (List.range n1).map
          (fun i => (i, (matchIdxs LK RK n2 i).head?)) := by
  unfold mergeRows
  apply flatMap_singleton_eq_map
  intro i _
  have hlen : (matchIdxs LK RK n2 i).length ≤ 1 :=
    length_filter_le_one (List.range n2) (fun j => keyTuple RK j)
      (keyTuple LK i) huniq
  cases hm : matchIdxs LK RK n2 i with
  | nil => simp
  | cons j js =>
    rw [hm] at hlen
    have hjs : js = [] := by
      rw [← List.length_eq_zero]
      simp only [List.length_cons] at hlen
      omega
    subst hjs
    simp

lemma getD_map_range {β : Type} (n i : Nat) (g : Nat → β) (d : β)
    (hi : i < n) : ((List.range n).map g).getD i d = g i := by
  rw [List.getD_eq_getElem?_getD, List.getElem?_map, List.getElem?_range hi]
  rfl

lemma mem_selectCols (df : DataFrame) (ns : List String) (c : Col)
    (hc : c ∈ selectCols df ns) : c ∈ df ∧ c.name ∈ ns := by
  unfold selectCols at hc
  rw [List.mem_filterMap] at hc
  obtain ⟨n, hn, hfind⟩ := hc
  refine ⟨List.mem_of_find?_eq_some hfind, ?_⟩
  have h2 : c.name = n := by
    have h3 := List.find?_some hfind
    simpa using h3
  rw [h2]
  exact hn

/-- C7 counterexample: when the secondary table repeats a join-key
value, the left merge emits one row per match and the concat
outer-aligns, so the result has **more** rows than the primary table
(and the primary's columns get padded), refuting the universal
row-count claim. -/
theorem merge_by_concat_rowcount_not_preserved :
    nrows (merge_by_concat
      [⟨"id", Dtype.int64, [Val.i 1]⟩, ⟨"a", Dtype.int64, [Val.i 10]⟩]
      [⟨"id", Dtype.int64, [Val.i 1, Val.i 1]⟩,
       ⟨"b", Dtype.int64, [Val.i 20, Val.i 30]⟩]
      ["id"]) = 2 ∧
    nrows [⟨"id", Dtype.int64, [Val.i 1]⟩, ⟨"a", Dtype.int64, [Val.i 10]⟩]
      = 1 := by decide

/-- C7 amended: under well-formedness, a non-empty join-key set present
in the primary table, and **unique** join-key tuples in the secondary
table, `merge_by_concat` is a left join: the primary table's columns
come back first, unchanged (same order, dtypes and values); the result
has exactly the primary table's row count; and every appended column
has one value per primary row, with a missing placeholder wherever the
primary row has no key match in the secondary table. -/
theorem merge_by_concat_left_join (df1 df2 : DataFrame)
    (merge_on : List String) (h1 : WF df1) (h2 : WF df2)
    (hne : merge_on ≠ [])
    (hk : ∀ k ∈ merge_on, ∃ c ∈ df1, c.name = k)
    (huniq : ((List.range (nrows df2)).map
      (fun j => keyTuple (selectCols df2 merge_on) j)).Nodup) :
    (merge_by_concat df1 df2 merge_on).take df1.length = df1 ∧
    nrows (merge_by_concat df1 df2 merge_on) = nrows df1 ∧
    ∀ c ∈ (merge_by_concat df1 df2 merge_on).drop df1.length,
      c.values.length = nrows df1 ∧
      ∀ i, i < nrows df1 →
        matchIdxs (selectCols df1 merge_on) (selectCols df2 merge_on)
          (nrows df2) i = [] →
        c.values.getD i Val.missing = Val.missing := by
  have hL : selectCols (selectCols df1 merge_on) merge_on
      = selectCols df1 merge_on := selectCols_idem df1 merge_on hk
  have hn1 : nrows (selectCols df1 merge_on) = nrows df1 :=
    nrows_selectCols df1 merge_on h1 hk hne
  have hrows : mergeRows (selectCols (selectCols df1 merge_on) merge_on)
      (selectCols df2 merge_on) (nrows (selectCols df1 merge_on))
      (nrows df2)
      = (List.range (nrows df1)).map
          (fun i => (i, (matchIdxs (selectCols df1 merge_on)
            (selectCols df2 merge_on) (nrows df2) i).head?)) := by
    rw [hL, hn1]
    exact mergeRows_of_unique _ _ _ _ huniq
  have haddmem : ∀ c ∈ selectCols (mergedGf df1 df2 merge_on)
      (newColumns df1 df2 merge_on),
      c.values.length = nrows df1 ∧
      ∀ i, i < nrows df1 →
        matchIdxs (selectCols df1 merge_on) (selectCols df2 merge_on)
          (nrows df2) i = [] →
        c.values.getD i Val.missing = Val.missing := by
    intro c hc
    obtain ⟨hcmerged, hcnames⟩ := mem_selectCols _ _ _ hc
    have hnotkey : c.name ∉ merge_on := by
      unfold newColumns at hcnames
      have hb := List.of_mem_filter hcnames
      simpa using hb
    unfold mergedGf pandasLeftMerge at hcmerged
    rw [List.mem_append] at hcmerged
    rcases hcmerged with hl | hr
    · unfold leftCols at hl
      obtain ⟨c0, hc0, hceq⟩ := List.mem_map.mp hl
      have h3 : c0.name ∈ merge_on :=
        (mem_selectCols df1 merge_on c0 hc0).2
      rw [← hceq] at hnotkey
      exact absurd h3 hnotkey
    · unfold rightCols at hr
      obtain ⟨c2, hc2, hceq⟩ := List.mem_map.mp hr
      subst hceq
      constructor
      · dsimp only
        rw [hrows]
        simp
      · intro i hi hmatch
        dsimp only
        rw [hrows, List.map_map, getD_map_range _ _ _ _ hi]
        simp [hmatch]
  have hmax : max (nrows df1)
      (nrows (selectCols (mergedGf df1 df2 merge_on)
        (newColumns df1 df2 merge_on))) = nrows df1 := by
    cases hadd : selectCols (mergedGf df1 df2 merge_on)
        (newColumns df1 df2 merge_on) with
    | nil => simp [nrows]
    | cons c0 rest =>
      have h3 := (haddmem c0 (by rw [hadd]; exact List.mem_cons_self c0 rest)).1
      show max (nrows df1) (nrows (c0 :: rest)) = nrows df1
      rw [show nrows (c0 :: rest) = c0.values.length from rfl, h3]
      exact Nat.max_self _
  have hcat : merge_by_concat df1 df2 merge_on
      = df1 ++ selectCols (mergedGf df1 df2 merge_on)
          (newColumns df1 df2 merge_on) := by
    unfold merge_by_concat concatAxis1
    rw [hmax]
    have hlens : ∀ c ∈ df1 ++ selectCols (mergedGf df1 df2 merge_on)
        (newColumns df1 df2 merge_on), c.values.length = nrows df1 := by
      intro c hc
      rcases List.mem_append.mp hc with h | h
      · exact h1 c h
      · exact (haddmem c h).1
    refine (List.map_congr_left ?_).trans (List.map_id _)
    intro c hc
    rw [if_neg (by rw [hlens c hc]; exact lt_irrefl _)]
    rfl
  refine ⟨?_, ?_, ?_⟩
  · rw [hcat]
    exact List.take_left _ _
  · rw [hcat]
    cases hdf1 : df1 with
    | nil =>
      cases merge_on with
      | nil => exact absurd rfl hne
      | cons k rest =>
        obtain ⟨c0, hc0, _⟩ := hk k (List.mem_cons_self k rest)
        rw [hdf1] at hc0
        cases hc0
    | cons c0 rest => rfl
  · rw [hcat, List.drop_left]
    exact haddmem

/-- Witness for C7 (amended): a one-row primary and a non-matching
one-row secondary — the primary survives unchanged and keeps its row
count. -/
theorem merge_by_concat_left_join_witness :
    (merge_by_concat [⟨"id", Dtype.int64, [Val.i 1]⟩,
        ⟨"a", Dtype.int64, [Val.i 10]⟩]
      [⟨"id", Dtype.int64, [Val.i 2]⟩, ⟨"b", Dtype.int64, [Val.i 20]⟩]
      ["id"]).take 2
      = [⟨"id", Dtype.int64, [Val.i 1]⟩, ⟨"a", Dtype.int64, [Val.i 10]⟩] ∧
    nrows (merge_by_concat [⟨"id", Dtype.int64, [Val.i 1]⟩,
        ⟨"a", Dtype.int64, [Val.i 10]⟩]
      [⟨"id", Dtype.int64, [Val.i 2]⟩, ⟨"b", Dtype.int64, [Val.i 20]⟩]
      ["id"])
      = nrows [⟨"id", Dtype.int64, [Val.i 1]⟩,
          ⟨"a", Dtype.int64, [Val.i 10]⟩] := by
  have h := merge_by_concat_left_join
    [⟨"id", Dtype.int64, [Val.i 1]⟩, ⟨"a", Dtype.int64, [Val.i 10]⟩]
    [⟨"id", Dtype.int64, [Val.i 2]⟩, ⟨"b", Dtype.int64, [Val.i 20]⟩]
    ["id"] (by unfold WF; decide) (by unfold WF; decide) (by decide)
    (by decide) (by decide)
  exact ⟨h.1, h.2.1⟩
